import Mathlib

set_option linter.unusedVariables false

/-!
Verification of the AMDGPU code-generation pass-pipeline builder
(`llvm/lib/Target/AMDGPU/AMDGPUCodeGenPassBuilder.cpp`).

The builder assembles, per compilation session, an ordered list of
transformation stages ("passes") for five phases.  We embed the decision
logic shallowly: each phase builder becomes a Lean function from the
configuration (optimization level, `cl::opt` flags, target toggles) to the
list of pass identities it appends, in order.  The generic base pipeline
(`Base::addIRPasses`, `Base::addCodeGenPrepare`) is opaque to this file and
is modelled as an explicit parameter list of opaque generic stages.
-/

/-- The `CodeGenOptLevel` enumeration: `None < Less < Default < Aggressive`. -/
inductive CodeGenOptLevel
  | None
  | Less
  | Default
  | Aggressive
deriving DecidableEq, Repr, Fintype

/-- Ordinal value of an optimization level, used for the `<`, `<=`, `>=`
comparisons the C++ code performs on the enumeration. -/
def CodeGenOptLevel.toNat : CodeGenOptLevel → Nat
  | .None => 0
  | .Less => 1
  | .Default => 2
  | .Aggressive => 3

/-- State of one boolean `cl::opt` command-line flag: its compiled-in
default (`cl::init`) together with the explicit user-supplied override, when
one was given on the command line. -/
structure ClBoolOpt where
  default : Bool
  override : Option Bool
deriving DecidableEq, Repr

/-- The C++ `cl::opt::getNumOccurrences()`: the number of user-supplied
occurrences of the flag, positive exactly when an override was supplied. -/
def ClBoolOpt.getNumOccurrences (o : ClBoolOpt) : Nat :=
  match o.override with
  | some _ => 1
  | none => 0

/-- The stored value a `cl::opt<bool>` converts to: the user-supplied value
when one was given, the compiled-in default otherwise. -/
def ClBoolOpt.getValue (o : ClBoolOpt) : Bool :=
  o.override.getD o.default

/-- The `ScanOptions` strategy enumeration of the atomic optimizer flag. -/
inductive ScanOptions
  | DPP
  | Iterative
  | None
deriving DecidableEq, Repr, Fintype

/-- Identities of the transformation stages the builder can append.
`generic n` stands for the `n`-th opaque stage contributed by the generic
target-independent base pipeline delegate. -/
inductive Pass
  | AMDGPUPrintfRuntimeBinding
  | AMDGPUCtorDtorLowering
  | AMDGPUImageIntrinsicOptimizer
  | ExpandVariadics
  | AMDGPUAlwaysInline
  | AlwaysInliner
  | AMDGPULowerModuleLDS
  | InferAddressSpaces
  | AMDGPUAtomicOptimizer
  | AtomicExpand
  | AMDGPUPromoteAlloca
  | AMDGPUCodeGenPrepare
  | LoopDataPrefetch
  | SeparateConstOffsetFromGEP
  | StraightLineStrengthReduce
  | NaryReassociate
  | EarlyCSE
  | GVN
  | AMDGPULowerKernelArguments
  | AMDGPULowerBufferFatPointers
  | LoadStoreVectorizer
  | LowerSwitch
  | FlattenCFG
  | Sinking
  | AMDGPULateCodeGenPrepare
  | AMDGPUUnifyDivergentExitNodes
  | FixIrreducible
  | UnifyLoopExits
  | StructurizeCFG
  | AMDGPUAnnotateUniformValues
  | SIAnnotateControlFlow
  | AMDGPURewriteUndefForPHI
  | LCSSA
  | AMDGPUPerfHintAnalysis
  | RequireUniformityInfoAnalysis
  | AMDGPUISelDAGToDAG
  | SIFixSGPRCopies
  | SILowerI1Copies
  | StackMapLiveness
  | FuncletLayout
  | ShadowStackGCLowering
  | generic (n : Nat)
deriving DecidableEq, Repr

/-- Whether a pass identity is an opaque stage of the generic base pipeline
delegate (all stages the delegate contributes are of this shape). -/
def Pass.isGeneric : Pass → Bool
  | .generic _ => true
  | _ => false

/-- The configuration surface of one compilation session: the target
machine's optimization level, the three structurizer-related toggles of
`AMDGPUTargetMachine`, and the boolean `cl::opt` flags (plus the atomic
optimizer's strategy flag) the builder consults. -/
structure Config where
  optLevel : CodeGenOptLevel
  EnableLateStructurizeCFG : Bool
  DisableStructurizer : Bool
  EnableStructurizerWorkarounds : Bool
  LowerCtorDtor : ClBoolOpt
  EnableImageIntrinsicOptimizer : ClBoolOpt
  EnableLowerModuleLDS : ClBoolOpt
  AMDGPUAtomicOptimizerStrategy : ScanOptions
  EnableScalarIRPasses : ClBoolOpt
  EnableLowerKernelArguments : ClBoolOpt
  EnableLoadStoreVectorizer : ClBoolOpt
  EnableLoopPrefetch : ClBoolOpt
deriving DecidableEq, Repr

/-- `AMDGPUCodeGenPassBuilder::isPassEnabled`: returns the flag's stored
value when the user supplied an occurrence, `false` when the optimization
level is strictly below `level`, and the flag's stored (default) value
otherwise.  In the header, `level` defaults to `CodeGenOptLevel::Default`;
call sites written without a level pass `.Default` here explicitly. -/
def isPassEnabled (cfg : Config) (opt : ClBoolOpt) (level : CodeGenOptLevel) : Bool :=
  if opt.getNumOccurrences ≠ 0 then opt.getValue
  else if cfg.optLevel.toNat < level.toNat then false
  else opt.getValue

/-- A conditionally appended segment: the C++ pattern
`if (cond) addPass(...)` becomes `optList cond [...]`. -/
def optList (b : Bool) (l : List Pass) : List Pass :=
  if b then l else []

/-- `AMDGPUCodeGenPassBuilder::addEarlyCSEOrGVNPass`: at `Aggressive`
append `GVNPass`, otherwise append `EarlyCSEPass`. -/
def addEarlyCSEOrGVNPass (cfg : Config) : List Pass :=
  if cfg.optLevel = CodeGenOptLevel.Aggressive then [Pass.GVN] else [Pass.EarlyCSE]

/-- `AMDGPUCodeGenPassBuilder::addStraightLineScalarOptimizationPasses`. -/
def addStraightLineScalarOptimizationPasses (cfg : Config) : List Pass :=
  optList (isPassEnabled cfg cfg.EnableLoopPrefetch CodeGenOptLevel.Aggressive)
    [Pass.LoopDataPrefetch]
  ++ [Pass.SeparateConstOffsetFromGEP]
  ++ [Pass.StraightLineStrengthReduce]
  ++ addEarlyCSEOrGVNPass cfg
  ++ [Pass.NaryReassociate]
  ++ [Pass.EarlyCSE]

/-- `AMDGPUCodeGenPassBuilder::addIRPasses`.  `base` is the stage list the
opaque `Base::addIRPasses` delegate contributes at its call site. -/
def addIRPasses (cfg : Config) (base : List Pass) : List Pass :=
  [Pass.AMDGPUPrintfRuntimeBinding]
  ++ optList cfg.LowerCtorDtor.getValue [Pass.AMDGPUCtorDtorLowering]
  ++ optList (isPassEnabled cfg cfg.EnableImageIntrinsicOptimizer CodeGenOptLevel.Default)
       [Pass.AMDGPUImageIntrinsicOptimizer]
  ++ [Pass.ExpandVariadics]
  ++ [Pass.AMDGPUAlwaysInline]
  ++ [Pass.AlwaysInliner]
  ++ optList cfg.EnableLowerModuleLDS.getValue [Pass.AMDGPULowerModuleLDS]
  ++ optList (decide (CodeGenOptLevel.None.toNat < cfg.optLevel.toNat)) [Pass.InferAddressSpaces]
  ++ optList (decide (CodeGenOptLevel.Less.toNat ≤ cfg.optLevel.toNat) &&
        decide (cfg.AMDGPUAtomicOptimizerStrategy ≠ ScanOptions.None))
       [Pass.AMDGPUAtomicOptimizer]
  ++ [Pass.AtomicExpand]
  ++ optList (decide (CodeGenOptLevel.None.toNat < cfg.optLevel.toNat))
       ([Pass.AMDGPUPromoteAlloca]
        ++ optList (isPassEnabled cfg cfg.EnableScalarIRPasses CodeGenOptLevel.Default)
             (addStraightLineScalarOptimizationPasses cfg)
        ++ [Pass.AMDGPUCodeGenPrepare])
  ++ base
  ++ optList (isPassEnabled cfg cfg.EnableScalarIRPasses CodeGenOptLevel.Default)
       (addEarlyCSEOrGVNPass cfg)

/-- `AMDGPUCodeGenPassBuilder::addCodeGenPrepare`.  `base` is the stage
list the opaque `Base::addCodeGenPrepare` delegate contributes. -/
def addCodeGenPrepare (cfg : Config) (base : List Pass) : List Pass :=
  optList cfg.EnableLowerKernelArguments.getValue [Pass.AMDGPULowerKernelArguments]
  ++ [Pass.AMDGPULowerBufferFatPointers]
  ++ base
  ++ optList (isPassEnabled cfg cfg.EnableLoadStoreVectorizer CodeGenOptLevel.Default)
       [Pass.LoadStoreVectorizer]
  ++ [Pass.LowerSwitch]

/-- `AMDGPUCodeGenPassBuilder::addPreISel`. -/
def addPreISel (cfg : Config) : List Pass :=
  optList (decide (CodeGenOptLevel.None.toNat < cfg.optLevel.toNat)) [Pass.FlattenCFG]
  ++ optList (decide (CodeGenOptLevel.None.toNat < cfg.optLevel.toNat)) [Pass.Sinking]
  ++ [Pass.AMDGPULateCodeGenPrepare]
  ++ [Pass.AMDGPUUnifyDivergentExitNodes]
  ++ optList (!cfg.EnableLateStructurizeCFG && !cfg.DisableStructurizer)
       (optList cfg.EnableStructurizerWorkarounds [Pass.FixIrreducible, Pass.UnifyLoopExits]
        ++ [Pass.StructurizeCFG])
  ++ [Pass.AMDGPUAnnotateUniformValues]
  ++ optList (!cfg.EnableLateStructurizeCFG && !cfg.DisableStructurizer)
       [Pass.SIAnnotateControlFlow, Pass.AMDGPURewriteUndefForPHI]
  ++ [Pass.LCSSA]
  ++ optList (decide (CodeGenOptLevel.Less.toNat < cfg.optLevel.toNat)) [Pass.AMDGPUPerfHintAnalysis]
  ++ [Pass.RequireUniformityInfoAnalysis]

/-- `AMDGPUCodeGenPassBuilder::addInstSelector`: appends three machine
stages and returns `Error::success()`. -/
def addInstSelector (cfg : Config) : Except String (List Pass) :=
  Except.ok [Pass.AMDGPUISelDAGToDAG, Pass.SIFixSGPRCopies, Pass.SILowerI1Copies]

/-- `AMDGPUCodeGenPassBuilder::addAsmPrinter`: intentionally empty. -/
def addAsmPrinter (cfg : Config) : List Pass :=
  []

/-- The stage kinds removed by `disablePass<...>` in the constructor of
`AMDGPUCodeGenPassBuilder`. -/
def constructorDisabledPasses : List Pass :=
  [Pass.StackMapLiveness, Pass.FuncletLayout, Pass.ShadowStackGCLowering]

/-- Modelled from the spec (refinement side of the CSE-selection policy):
"at optimization level Aggressive, select the exhaustive value-numbering
variant; otherwise select the cheap, single-pass variant". -/
def specCSEVariant (level : CodeGenOptLevel) : Pass :=
  if level = CodeGenOptLevel.Aggressive then Pass.GVN else Pass.EarlyCSE

/-- A sample configuration: optimization level `Default`, structurizer in
its default-early mode, and every flag left at a compiled-in default. -/
def cfg0 : Config :=
  ⟨CodeGenOptLevel.Default, false, false, true,
   ⟨true, none⟩, ⟨false, none⟩, ⟨true, none⟩, ScanOptions.Iterative,
   ⟨true, none⟩, ⟨true, none⟩, ⟨true, none⟩, ⟨false, none⟩⟩

/-- The sample configuration `cfg0` with optimization level `None`. -/
def cfgNone : Config :=
  ⟨CodeGenOptLevel.None, false, false, true,
   ⟨true, none⟩, ⟨false, none⟩, ⟨true, none⟩, ScanOptions.Iterative,
   ⟨true, none⟩, ⟨true, none⟩, ⟨true, none⟩, ⟨false, none⟩⟩

/-- Optimization level `None` with the scalar-IR-optimizations flag
explicitly overridden to `true` on the command line. -/
def cfgNoneScalarOverride : Config :=
  ⟨CodeGenOptLevel.None, false, false, true,
   ⟨true, none⟩, ⟨false, none⟩, ⟨true, none⟩, ScanOptions.Iterative,
   ⟨true, some true⟩, ⟨true, none⟩, ⟨true, none⟩, ⟨false, none⟩⟩

/-- Structurizer disabled (`DisableStructurizer` set) while the
structurizer-workaround flag is also set. -/
def cfgDisabledWorkaround : Config :=
  ⟨CodeGenOptLevel.Default, false, true, true,
   ⟨true, none⟩, ⟨false, none⟩, ⟨true, none⟩, ScanOptions.Iterative,
   ⟨true, none⟩, ⟨true, none⟩, ⟨true, none⟩, ⟨false, none⟩⟩

/-- Structurization deferred to the late phase (`EnableLateStructurizeCFG`
set), workaround flag clear. -/
def cfgLateStructurize : Config :=
  ⟨CodeGenOptLevel.Default, true, false, false,
   ⟨true, none⟩, ⟨false, none⟩, ⟨true, none⟩, ScanOptions.Iterative,
   ⟨true, none⟩, ⟨true, none⟩, ⟨true, none⟩, ⟨false, none⟩⟩

theorem optList_true (l : List Pass) : optList true l = l := rfl

theorem optList_false (l : List Pass) : optList false l = [] := rfl

theorem mem_optList {b : Bool} {l : List Pass} {p : Pass} :
    p ∈ optList b l ↔ b = true ∧ p ∈ l := by
  cases b <;> simp [optList]

theorem generic_ne {p c : Pass} (hp : p.isGeneric = true) (hc : c.isGeneric = false) :
    p ≠ c := by
  intro h
  rw [h, hc] at hp
  exact Bool.false_ne_true hp

theorem not_mem_of_generic {p : Pass} (hp : p.isGeneric = true)
    {A : List Pass} (hA : ∀ q ∈ A, q.isGeneric = false) : p ∉ A := by
  intro h
  rw [hA p h] at hp
  exact Bool.false_ne_true hp

theorem not_mem_base_of_generic {base : List Pass}
    (hbase : ∀ q ∈ base, q.isGeneric = true) {p : Pass} (hp : p.isGeneric = false) :
    p ∉ base := by
  intro h
  rw [hbase p h] at hp
  exact Bool.false_ne_true hp.symm

theorem indexOf_head_lt {A rest : List Pass} {b p : Pass}
    (hbA : b ∉ A) (hpA : p ∉ A) (hpb : p ≠ b) :
    (A ++ b :: rest).indexOf b < (A ++ b :: rest).indexOf p := by
  rw [List.indexOf_append_of_not_mem hbA, List.indexOf_append_of_not_mem hpA,
    List.indexOf_cons_self, List.indexOf_cons_ne _ (Ne.symm hpb)]
  omega

theorem indexOf_mid_lt_last {A base rest : List Pass} {p e : Pass}
    (hp : p ∈ base) (hpA : p ∉ A) (heA : e ∉ A) (heB : e ∉ base) :
    (A ++ (base ++ e :: rest)).indexOf p < (A ++ (base ++ e :: rest)).indexOf e := by
  rw [List.indexOf_append_of_not_mem hpA, List.indexOf_append_of_not_mem heA,
    List.indexOf_append_of_mem hp, List.indexOf_append_of_not_mem heB,
    List.indexOf_cons_self]
  have := List.indexOf_lt_length.mpr hp
  omega

/-- The stages `addIRPasses` appends before the `Base::addIRPasses`
delegate call (proof-side regrouping of the same segments). -/
def irHeadFull (cfg : Config) : List Pass :=
  [Pass.AMDGPUPrintfRuntimeBinding]
  ++ optList cfg.LowerCtorDtor.getValue [Pass.AMDGPUCtorDtorLowering]
  ++ optList (isPassEnabled cfg cfg.EnableImageIntrinsicOptimizer CodeGenOptLevel.Default)
       [Pass.AMDGPUImageIntrinsicOptimizer]
  ++ [Pass.ExpandVariadics]
  ++ [Pass.AMDGPUAlwaysInline]
  ++ [Pass.AlwaysInliner]
  ++ optList cfg.EnableLowerModuleLDS.getValue [Pass.AMDGPULowerModuleLDS]
  ++ optList (decide (CodeGenOptLevel.None.toNat < cfg.optLevel.toNat)) [Pass.InferAddressSpaces]
  ++ optList (decide (CodeGenOptLevel.Less.toNat ≤ cfg.optLevel.toNat) &&
        decide (cfg.AMDGPUAtomicOptimizerStrategy ≠ ScanOptions.None))
       [Pass.AMDGPUAtomicOptimizer]
  ++ [Pass.AtomicExpand]
  ++ optList (decide (CodeGenOptLevel.None.toNat < cfg.optLevel.toNat))
       ([Pass.AMDGPUPromoteAlloca]
        ++ optList (isPassEnabled cfg cfg.EnableScalarIRPasses CodeGenOptLevel.Default)
             (addStraightLineScalarOptimizationPasses cfg)
        ++ [Pass.AMDGPUCodeGenPrepare])

/-- The stages `addIRPasses` appends after the delegate call. -/
def irTail (cfg : Config) : List Pass :=
  optList (isPassEnabled cfg cfg.EnableScalarIRPasses CodeGenOptLevel.Default)
    (addEarlyCSEOrGVNPass cfg)

theorem addIRPasses_split (cfg : Config) (base : List Pass) :
    addIRPasses cfg base = irHeadFull cfg ++ (base ++ irTail cfg) := by
  simp [addIRPasses, irHeadFull, irTail, List.append_assoc]

/-- Restriction of `irHeadFull` to an optimization level of `None`: the
level-gated segments drop out. -/
def irHeadAtNone (cfg : Config) : List Pass :=
  [Pass.AMDGPUPrintfRuntimeBinding]
  ++ optList cfg.LowerCtorDtor.getValue [Pass.AMDGPUCtorDtorLowering]
  ++ optList (isPassEnabled cfg cfg.EnableImageIntrinsicOptimizer CodeGenOptLevel.Default)
       [Pass.AMDGPUImageIntrinsicOptimizer]
  ++ [Pass.ExpandVariadics]
  ++ [Pass.AMDGPUAlwaysInline]
  ++ [Pass.AlwaysInliner]
  ++ optList cfg.EnableLowerModuleLDS.getValue [Pass.AMDGPULowerModuleLDS]
  ++ [Pass.AtomicExpand]

theorem addIRPasses_split_none (cfg : Config) (base : List Pass)
    (hopt : cfg.optLevel = CodeGenOptLevel.None) :
    addIRPasses cfg base = irHeadAtNone cfg ++ (base ++ irTail cfg) := by
  simp [addIRPasses, irHeadAtNone, irTail, hopt, CodeGenOptLevel.toNat,
    optList_false, List.append_assoc]

theorem mem_irHeadAtNone_none_of (cfg : Config) :
    ∀ q ∈ irHeadAtNone cfg, q.isGeneric = false := by
  unfold irHeadAtNone
  generalize cfg.LowerCtorDtor.getValue = b1
  generalize isPassEnabled cfg cfg.EnableImageIntrinsicOptimizer CodeGenOptLevel.Default = b2
  generalize cfg.EnableLowerModuleLDS.getValue = b3
  revert b1 b2 b3
  decide

theorem irHeadAtNone_includes (cfg : Config) :
    Pass.AMDGPUPrintfRuntimeBinding ∈ irHeadAtNone cfg ∧
    Pass.ExpandVariadics ∈ irHeadAtNone cfg ∧
    Pass.AMDGPUAlwaysInline ∈ irHeadAtNone cfg ∧
    Pass.AlwaysInliner ∈ irHeadAtNone cfg := by
  unfold irHeadAtNone
  generalize cfg.LowerCtorDtor.getValue = b1
  generalize isPassEnabled cfg cfg.EnableImageIntrinsicOptimizer CodeGenOptLevel.Default = b2
  generalize cfg.EnableLowerModuleLDS.getValue = b3
  revert b1 b2 b3
  decide

theorem irHeadAtNone_excludes (cfg : Config) :
    Pass.InferAddressSpaces ∉ irHeadAtNone cfg ∧
    Pass.AMDGPUAtomicOptimizer ∉ irHeadAtNone cfg ∧
    Pass.AMDGPUPromoteAlloca ∉ irHeadAtNone cfg ∧
    Pass.EarlyCSE ∉ irHeadAtNone cfg ∧
    Pass.GVN ∉ irHeadAtNone cfg ∧
    Pass.SeparateConstOffsetFromGEP ∉ irHeadAtNone cfg ∧
    Pass.StraightLineStrengthReduce ∉ irHeadAtNone cfg ∧
    Pass.NaryReassociate ∉ irHeadAtNone cfg := by
  unfold irHeadAtNone
  generalize cfg.LowerCtorDtor.getValue = b1
  generalize isPassEnabled cfg cfg.EnableImageIntrinsicOptimizer CodeGenOptLevel.Default = b2
  generalize cfg.EnableLowerModuleLDS.getValue = b3
  revert b1 b2 b3
  decide

theorem mem_irTail_subset (cfg : Config) :
    ∀ q ∈ irTail cfg, q = Pass.GVN ∨ q = Pass.EarlyCSE := by
  unfold irTail addEarlyCSEOrGVNPass
  generalize isPassEnabled cfg cfg.EnableScalarIRPasses CodeGenOptLevel.Default = b1
  generalize cfg.optLevel = L
  revert b1 L
  decide

theorem mem_straightLine_subset (cfg : Config) :
    ∀ q ∈ addStraightLineScalarOptimizationPasses cfg,
      q ∈ [Pass.LoopDataPrefetch, Pass.SeparateConstOffsetFromGEP,
        Pass.StraightLineStrengthReduce, Pass.GVN, Pass.EarlyCSE,
        Pass.NaryReassociate] := by
  unfold addStraightLineScalarOptimizationPasses addEarlyCSEOrGVNPass
  generalize isPassEnabled cfg cfg.EnableLoopPrefetch CodeGenOptLevel.Aggressive = b1
  generalize cfg.optLevel = L
  revert b1 L
  decide

/-- Every stage the IR-phase builder itself appends (the delegate's stages
apart) comes from this fixed universe of target-side stage identities. -/
theorem mem_irHeadFull_subset (cfg : Config) :
    ∀ q ∈ irHeadFull cfg,
      q ∈ [Pass.AMDGPUPrintfRuntimeBinding, Pass.AMDGPUCtorDtorLowering,
        Pass.AMDGPUImageIntrinsicOptimizer, Pass.ExpandVariadics,
        Pass.AMDGPUAlwaysInline, Pass.AlwaysInliner, Pass.AMDGPULowerModuleLDS,
        Pass.InferAddressSpaces, Pass.AMDGPUAtomicOptimizer, Pass.AtomicExpand,
        Pass.AMDGPUPromoteAlloca, Pass.LoopDataPrefetch,
        Pass.SeparateConstOffsetFromGEP, Pass.StraightLineStrengthReduce,
        Pass.GVN, Pass.EarlyCSE, Pass.NaryReassociate,
        Pass.AMDGPUCodeGenPrepare] := by
  unfold irHeadFull addStraightLineScalarOptimizationPasses addEarlyCSEOrGVNPass
  generalize cfg.LowerCtorDtor.getValue = b1
  generalize isPassEnabled cfg cfg.EnableImageIntrinsicOptimizer CodeGenOptLevel.Default = b2
  generalize cfg.EnableLowerModuleLDS.getValue = b3
  generalize cfg.AMDGPUAtomicOptimizerStrategy = s
  generalize isPassEnabled cfg cfg.EnableScalarIRPasses CodeGenOptLevel.Default = b4
  generalize isPassEnabled cfg cfg.EnableLoopPrefetch CodeGenOptLevel.Aggressive = b5
  generalize cfg.optLevel = L
  revert b1 b2 b3 b4 b5 s L
  decide

/-- Every stage the pre-instruction-selection builder appends comes from
this fixed universe of stage identities. -/
theorem mem_addPreISel_subset (cfg : Config) :
    ∀ q ∈ addPreISel cfg,
      q ∈ [Pass.FlattenCFG, Pass.Sinking, Pass.AMDGPULateCodeGenPrepare,
        Pass.AMDGPUUnifyDivergentExitNodes, Pass.FixIrreducible,
        Pass.UnifyLoopExits, Pass.StructurizeCFG,
        Pass.AMDGPUAnnotateUniformValues, Pass.SIAnnotateControlFlow,
        Pass.AMDGPURewriteUndefForPHI, Pass.LCSSA, Pass.AMDGPUPerfHintAnalysis,
        Pass.RequireUniformityInfoAnalysis] := by
  unfold addPreISel
  generalize cfg.EnableLateStructurizeCFG = b1
  generalize cfg.DisableStructurizer = b2
  generalize cfg.EnableStructurizerWorkarounds = b3
  generalize cfg.optLevel = L
  revert b1 b2 b3 L
  decide

/-- The stages the code-generation-preparation builder itself appends (the
delegate's stages apart) come from this fixed universe. -/
theorem mem_addCodeGenPrepare_subset (cfg : Config) (base : List Pass) :
    ∀ q ∈ addCodeGenPrepare cfg base,
      q ∈ [Pass.AMDGPULowerKernelArguments, Pass.AMDGPULowerBufferFatPointers,
        Pass.LoadStoreVectorizer, Pass.LowerSwitch] ∨ q ∈ base := by
  intro q hq
  unfold addCodeGenPrepare at hq
  rcases List.mem_append.mp hq with hq | hq
  · rcases List.mem_append.mp hq with hq | hq
    · rcases List.mem_append.mp hq with hq | hq
      · rcases List.mem_append.mp hq with hq | hq
        · rw [mem_optList] at hq
          simp at hq
          simp [hq.2]
        · simp at hq
          simp [hq]
      · exact Or.inr hq
    · rw [mem_optList] at hq
      simp at hq
      simp [hq.2]
  · simp at hq
    simp [hq]

/-- C1: `isPassEnabled` returns the explicitly supplied override value
whenever the flag has a user-supplied occurrence, regardless of the
optimization level; otherwise it returns `false` whenever the level is
strictly below the flag's threshold level; otherwise it returns the flag's
compiled-in default. -/
theorem isPassEnabled_three_tier (cfg : Config) (opt : ClBoolOpt) (level : CodeGenOptLevel) :
    isPassEnabled cfg opt level =
      match opt.override with
      | some b => b
      | none =>
        if cfg.optLevel.toNat < level.toNat then false else opt.default := by
  cases h : opt.override <;>
    simp [isPassEnabled, ClBoolOpt.getNumOccurrences, ClBoolOpt.getValue, h]

/-- C7: for every configuration the instruction-selection phase builder
appends exactly the three stages DAG ISel, SIFixSGPRCopies and
SILowerI1Copies, in this order, and returns success. -/
theorem addInstSelector_unconditional (cfg : Config) :
    addInstSelector cfg =
      Except.ok [Pass.AMDGPUISelDAGToDAG, Pass.SIFixSGPRCopies, Pass.SILowerI1Copies] :=
  rfl

/-- C9: the pre-instruction-selection phase emits identical stage sequences
for any two configurations with the same optimization level as soon as, in
each of them, at least one of the late-structurize or disable-structurizer
toggles is set; in particular the structurizer-workaround flag has no
effect there. -/
theorem addPreISel_mode_equiv (cfg cfg' : Config)
    (hopt : cfg.optLevel = cfg'.optLevel)
    (h : (cfg.EnableLateStructurizeCFG || cfg.DisableStructurizer) = true)
    (h' : (cfg'.EnableLateStructurizeCFG || cfg'.DisableStructurizer) = true) :
    addPreISel cfg = addPreISel cfg' := by
  have e : (!cfg.EnableLateStructurizeCFG && !cfg.DisableStructurizer) = false := by
    revert h
    cases cfg.EnableLateStructurizeCFG <;> cases cfg.DisableStructurizer <;> simp
  have e' : (!cfg'.EnableLateStructurizeCFG && !cfg'.DisableStructurizer) = false := by
    revert h'
    cases cfg'.EnableLateStructurizeCFG <;> cases cfg'.DisableStructurizer <;> simp
  simp [addPreISel, e, e', optList_false, hopt]

/-- Witness for C9 at two concrete configurations: deferred-to-late mode
(workarounds clear) against disabled mode (workarounds set). -/
theorem addPreISel_mode_equiv_witness :
    cfgLateStructurize.optLevel = cfgDisabledWorkaround.optLevel ∧
    (cfgLateStructurize.EnableLateStructurizeCFG ||
      cfgLateStructurize.DisableStructurizer) = true ∧
    (cfgDisabledWorkaround.EnableLateStructurizeCFG ||
      cfgDisabledWorkaround.DisableStructurizer) = true ∧
    addPreISel cfgLateStructurize = addPreISel cfgDisabledWorkaround :=
  ⟨by decide, by decide, by decide,
   addPreISel_mode_equiv cfgLateStructurize cfgDisabledWorkaround
     (by decide) (by decide) (by decide)⟩

/-- C3: with the structurizer disabled and the workaround flag set, the
pre-instruction-selection phase appends none of structurization, irreducible
control-flow repair, loop-exit unification, divergence control-flow
annotation, or phi undefined-value rewriting, yet still appends
divergent-exit-node unification and uniform-value annotation. -/
theorem addPreISel_structurizer_disabled (cfg : Config)
    (hdis : cfg.DisableStructurizer = true)
    (hwork : cfg.EnableStructurizerWorkarounds = true) :
    Pass.StructurizeCFG ∉ addPreISel cfg ∧
    Pass.FixIrreducible ∉ addPreISel cfg ∧
    Pass.UnifyLoopExits ∉ addPreISel cfg ∧
    Pass.SIAnnotateControlFlow ∉ addPreISel cfg ∧
    Pass.AMDGPURewriteUndefForPHI ∉ addPreISel cfg ∧
    Pass.AMDGPUUnifyDivergentExitNodes ∈ addPreISel cfg ∧
    Pass.AMDGPUAnnotateUniformValues ∈ addPreISel cfg := by
  have e : (!cfg.EnableLateStructurizeCFG && !cfg.DisableStructurizer) = false := by
    simp [hdis]
  simp [addPreISel, e, optList_false, mem_optList]

/-- Counterexample to C2 as stated: in the code-generation-preparation
phase the buffer/fat-pointer lowering stage is appended BEFORE the generic
delegate's stages, not after them.  At `cfg0` with a one-stage delegate the
delegate stage does not precede the buffer lowering stage. -/
theorem addCodeGenPrepare_buffer_not_after_base :
    Pass.generic 0 ∈ addCodeGenPrepare cfg0 [Pass.generic 0] ∧
    Pass.AMDGPULowerBufferFatPointers ∈ addCodeGenPrepare cfg0 [Pass.generic 0] ∧
    ¬ ((addCodeGenPrepare cfg0 [Pass.generic 0]).indexOf (Pass.generic 0) <
        (addCodeGenPrepare cfg0 [Pass.generic 0]).indexOf
          Pass.AMDGPULowerBufferFatPointers) := by
  decide

/-- C2 (amended): in the code-generation-preparation phase, the
buffer/fat-pointer lowering stage is appended before the generic
code-gen-preparation delegate's stages and before the memory-access
vectorizer stage (when the vectorizer is enabled). -/
theorem addCodeGenPrepare_buffer_before_base (cfg : Config) (base : List Pass)
    (hbase : ∀ p ∈ base, p.isGeneric = true) :
    Pass.AMDGPULowerBufferFatPointers ∈ addCodeGenPrepare cfg base ∧
    (∀ p ∈ base,
      (addCodeGenPrepare cfg base).indexOf Pass.AMDGPULowerBufferFatPointers <
        (addCodeGenPrepare cfg base).indexOf p) ∧
    (isPassEnabled cfg cfg.EnableLoadStoreVectorizer CodeGenOptLevel.Default = true →
      (addCodeGenPrepare cfg base).indexOf Pass.AMDGPULowerBufferFatPointers <
        (addCodeGenPrepare cfg base).indexOf Pass.LoadStoreVectorizer) := by
  have hshape : addCodeGenPrepare cfg base =
      optList cfg.EnableLowerKernelArguments.getValue [Pass.AMDGPULowerKernelArguments]
      ++ Pass.AMDGPULowerBufferFatPointers ::
        (base ++
          (optList (isPassEnabled cfg cfg.EnableLoadStoreVectorizer CodeGenOptLevel.Default)
              [Pass.LoadStoreVectorizer]
            ++ [Pass.LowerSwitch])) := by
    simp [addCodeGenPrepare, List.append_assoc]
  have hA : ∀ q ∈ optList cfg.EnableLowerKernelArguments.getValue
      [Pass.AMDGPULowerKernelArguments], q.isGeneric = false := by
    intro q hq
    rw [mem_optList] at hq
    rcases hq with ⟨-, hq⟩
    simp at hq
    subst hq
    rfl
  have hBA : Pass.AMDGPULowerBufferFatPointers ∉
      optList cfg.EnableLowerKernelArguments.getValue [Pass.AMDGPULowerKernelArguments] := by
    simp [mem_optList]
  refine ⟨?_, ?_, ?_⟩
  · rw [hshape]
    exact List.mem_append_right _ (List.mem_cons_self _ _)
  · intro p hp
    rw [hshape]
    exact indexOf_head_lt hBA (not_mem_of_generic (hbase p hp) hA)
      (generic_ne (hbase p hp) rfl)
  · intro hv
    rw [hshape]
    exact indexOf_head_lt hBA (by simp [mem_optList]) (by decide)

/-- Witness for the amended C2 at a concrete configuration with a
one-stage delegate. -/
theorem addCodeGenPrepare_buffer_before_base_witness :
    (∀ p ∈ [Pass.generic 0], p.isGeneric = true) ∧
    (Pass.AMDGPULowerBufferFatPointers ∈ addCodeGenPrepare cfg0 [Pass.generic 0] ∧
     (∀ p ∈ [Pass.generic 0],
       (addCodeGenPrepare cfg0 [Pass.generic 0]).indexOf Pass.AMDGPULowerBufferFatPointers <
         (addCodeGenPrepare cfg0 [Pass.generic 0]).indexOf p) ∧
     (isPassEnabled cfg0 cfg0.EnableLoadStoreVectorizer CodeGenOptLevel.Default = true →
       (addCodeGenPrepare cfg0 [Pass.generic 0]).indexOf Pass.AMDGPULowerBufferFatPointers <
         (addCodeGenPrepare cfg0 [Pass.generic 0]).indexOf Pass.LoadStoreVectorizer)) :=
  ⟨by decide, addCodeGenPrepare_buffer_before_base cfg0 [Pass.generic 0] (by decide)⟩

/-- C4: whenever the vectorizer flag is enabled, the buffer/fat-pointer
lowering stage strictly precedes the vectorizer stage in the
code-generation-preparation sequence; and for every configuration the
switch-lowering stage is the last stage of that phase. -/
theorem addCodeGenPrepare_order_invariant (cfg : Config) (base : List Pass) :
    (isPassEnabled cfg cfg.EnableLoadStoreVectorizer CodeGenOptLevel.Default = true →
      Pass.LoadStoreVectorizer ∈ addCodeGenPrepare cfg base ∧
      (addCodeGenPrepare cfg base).indexOf Pass.AMDGPULowerBufferFatPointers <
        (addCodeGenPrepare cfg base).indexOf Pass.LoadStoreVectorizer) ∧
    (addCodeGenPrepare cfg base).getLast? = some Pass.LowerSwitch := by
  have hshape : addCodeGenPrepare cfg base =
      optList cfg.EnableLowerKernelArguments.getValue [Pass.AMDGPULowerKernelArguments]
      ++ Pass.AMDGPULowerBufferFatPointers ::
        (base ++
          (optList (isPassEnabled cfg cfg.EnableLoadStoreVectorizer CodeGenOptLevel.Default)
              [Pass.LoadStoreVectorizer]
            ++ [Pass.LowerSwitch])) := by
    simp [addCodeGenPrepare, List.append_assoc]
  constructor
  · intro hv
    constructor
    · simp [addCodeGenPrepare, mem_optList, hv]
    · rw [hshape]
      exact indexOf_head_lt (by simp [mem_optList]) (by simp [mem_optList]) (by decide)
  · unfold addCodeGenPrepare
    rw [List.getLast?_append_of_ne_nil _ (List.cons_ne_nil _ _)]
    rfl

/-- Witness for C4 at a concrete configuration with a one-stage delegate. -/
theorem addCodeGenPrepare_order_invariant_witness :
    isPassEnabled cfg0 cfg0.EnableLoadStoreVectorizer CodeGenOptLevel.Default = true ∧
    (Pass.LoadStoreVectorizer ∈ addCodeGenPrepare cfg0 [Pass.generic 0] ∧
      (addCodeGenPrepare cfg0 [Pass.generic 0]).indexOf Pass.AMDGPULowerBufferFatPointers <
        (addCodeGenPrepare cfg0 [Pass.generic 0]).indexOf Pass.LoadStoreVectorizer) ∧
    (addCodeGenPrepare cfg0 [Pass.generic 0]).getLast? = some Pass.LowerSwitch :=
  ⟨by decide,
   (addCodeGenPrepare_order_invariant cfg0 [Pass.generic 0]).1 (by decide),
   (addCodeGenPrepare_order_invariant cfg0 [Pass.generic 0]).2⟩

/-- C5: the CSE-variant decision is the same at both call sites (the
straight-line scalar sub-sequence and the tail of the IR phase): both
append exactly the pass given by the spec's policy, which is GVN precisely
at Aggressive and EarlyCSE otherwise. -/
theorem cse_choice_consistent (cfg : Config) (base : List Pass)
    (h : isPassEnabled cfg cfg.EnableScalarIRPasses CodeGenOptLevel.Default = true) :
    addEarlyCSEOrGVNPass cfg = [specCSEVariant cfg.optLevel] ∧
    (addIRPasses cfg base).getLast? = some (specCSEVariant cfg.optLevel) ∧
    (addStraightLineScalarOptimizationPasses cfg)[
        (addStraightLineScalarOptimizationPasses cfg).indexOf
          Pass.StraightLineStrengthReduce + 1]? = some (specCSEVariant cfg.optLevel) ∧
    (specCSEVariant cfg.optLevel = Pass.GVN ↔ cfg.optLevel = CodeGenOptLevel.Aggressive) := by
  have ha : addEarlyCSEOrGVNPass cfg = [specCSEVariant cfg.optLevel] := by
    by_cases hl : cfg.optLevel = CodeGenOptLevel.Aggressive <;>
      simp [addEarlyCSEOrGVNPass, specCSEVariant, hl]
  have ht : irTail cfg = [specCSEVariant cfg.optLevel] := by
    rw [irTail, h, optList_true, ha]
  refine ⟨ha, ?_, ?_, ?_⟩
  · rw [addIRPasses_split, ht, List.getLast?_append_of_ne_nil _ (by simp),
      List.getLast?_append_of_ne_nil _ (by simp)]
    rfl
  · unfold addStraightLineScalarOptimizationPasses
    rw [ha]
    by_cases hb : isPassEnabled cfg cfg.EnableLoopPrefetch CodeGenOptLevel.Aggressive = true
    · rw [hb]
      rfl
    · rw [Bool.not_eq_true] at hb
      rw [hb]
      rfl
  · by_cases hl : cfg.optLevel = CodeGenOptLevel.Aggressive <;> simp [specCSEVariant, hl]

/-- Witness for C5 at a concrete configuration with a one-stage delegate. -/
theorem cse_choice_consistent_witness :
    isPassEnabled cfg0 cfg0.EnableScalarIRPasses CodeGenOptLevel.Default = true ∧
    (addEarlyCSEOrGVNPass cfg0 = [specCSEVariant cfg0.optLevel] ∧
     (addIRPasses cfg0 [Pass.generic 0]).getLast? = some (specCSEVariant cfg0.optLevel) ∧
     (addStraightLineScalarOptimizationPasses cfg0)[
         (addStraightLineScalarOptimizationPasses cfg0).indexOf
           Pass.StraightLineStrengthReduce + 1]? = some (specCSEVariant cfg0.optLevel) ∧
     (specCSEVariant cfg0.optLevel = Pass.GVN ↔ cfg0.optLevel = CodeGenOptLevel.Aggressive)) :=
  ⟨by decide, cse_choice_consistent cfg0 [Pass.generic 0] (by decide)⟩

/-- C6: at optimization level None the IR phase includes printf lowering,
variadic lowering, both always-inline passes and the generic delegate's
stages, and excludes address-space inference, the atomic optimizer and
allocation promotion (for every flag assignment, hence in particular at the
compiled-in defaults). -/
theorem addIRPasses_level_none (cfg : Config) (base : List Pass)
    (hopt : cfg.optLevel = CodeGenOptLevel.None)
    (hbase : ∀ p ∈ base, p.isGeneric = true) :
    Pass.AMDGPUPrintfRuntimeBinding ∈ addIRPasses cfg base ∧
    Pass.ExpandVariadics ∈ addIRPasses cfg base ∧
    Pass.AMDGPUAlwaysInline ∈ addIRPasses cfg base ∧
    Pass.AlwaysInliner ∈ addIRPasses cfg base ∧
    List.IsInfix base (addIRPasses cfg base) ∧
    Pass.InferAddressSpaces ∉ addIRPasses cfg base ∧
    Pass.AMDGPUAtomicOptimizer ∉ addIRPasses cfg base ∧
    Pass.AMDGPUPromoteAlloca ∉ addIRPasses cfg base := by
  rw [addIRPasses_split_none cfg base hopt]
  obtain ⟨h1, h2, h3, h4⟩ := irHeadAtNone_includes cfg
  obtain ⟨e1, e2, e3, -, -, -, -, -⟩ := irHeadAtNone_excludes cfg
  refine ⟨List.mem_append_left _ h1, List.mem_append_left _ h2,
    List.mem_append_left _ h3, List.mem_append_left _ h4,
    ⟨irHeadAtNone cfg, irTail cfg, by rw [List.append_assoc]⟩, ?_, ?_, ?_⟩
  · intro h
    rcases List.mem_append.mp h with h | h
    · exact e1 h
    rcases List.mem_append.mp h with h | h
    · exact not_mem_base_of_generic hbase (by decide) h
    · rcases mem_irTail_subset cfg _ h with h | h <;> simp at h
  · intro h
    rcases List.mem_append.mp h with h | h
    · exact e2 h
    rcases List.mem_append.mp h with h | h
    · exact not_mem_base_of_generic hbase (by decide) h
    · rcases mem_irTail_subset cfg _ h with h | h <;> simp at h
  · intro h
    rcases List.mem_append.mp h with h | h
    · exact e3 h
    rcases List.mem_append.mp h with h | h
    · exact not_mem_base_of_generic hbase (by decide) h
    · rcases mem_irTail_subset cfg _ h with h | h <;> simp at h

/-- Witness for C6 at a concrete level-None configuration with a one-stage
delegate. -/
theorem addIRPasses_level_none_witness :
    cfgNone.optLevel = CodeGenOptLevel.None ∧
    (∀ p ∈ [Pass.generic 0], p.isGeneric = true) ∧
    (Pass.AMDGPUPrintfRuntimeBinding ∈ addIRPasses cfgNone [Pass.generic 0] ∧
     Pass.ExpandVariadics ∈ addIRPasses cfgNone [Pass.generic 0] ∧
     Pass.AMDGPUAlwaysInline ∈ addIRPasses cfgNone [Pass.generic 0] ∧
     Pass.AlwaysInliner ∈ addIRPasses cfgNone [Pass.generic 0] ∧
     List.IsInfix [Pass.generic 0] (addIRPasses cfgNone [Pass.generic 0]) ∧
     Pass.InferAddressSpaces ∉ addIRPasses cfgNone [Pass.generic 0] ∧
     Pass.AMDGPUAtomicOptimizer ∉ addIRPasses cfgNone [Pass.generic 0] ∧
     Pass.AMDGPUPromoteAlloca ∉ addIRPasses cfgNone [Pass.generic 0]) :=
  ⟨by decide, by decide,
   addIRPasses_level_none cfgNone [Pass.generic 0] (by decide) (by decide)⟩

/-- C10: at optimization level None with the scalar-IR flag explicitly
overridden to true, the IR phase still appends the CSE-selection pass
(EarlyCSE, as the level is not Aggressive) after the delegate's stages, as
its final stage, but appends none of the straight-line scalar optimization
sub-sequence's own passes. -/
theorem addIRPasses_scalar_override_none (cfg : Config) (base : List Pass)
    (hopt : cfg.optLevel = CodeGenOptLevel.None)
    (hov : cfg.EnableScalarIRPasses.override = some true)
    (hbase : ∀ p ∈ base, p.isGeneric = true) :
    (addIRPasses cfg base).getLast? = some Pass.EarlyCSE ∧
    (∀ p ∈ base,
      (addIRPasses cfg base).indexOf p < (addIRPasses cfg base).indexOf Pass.EarlyCSE) ∧
    Pass.SeparateConstOffsetFromGEP ∉ addIRPasses cfg base ∧
    Pass.StraightLineStrengthReduce ∉ addIRPasses cfg base ∧
    Pass.NaryReassociate ∉ addIRPasses cfg base ∧
    Pass.AMDGPUPromoteAlloca ∉ addIRPasses cfg base := by
  have hen : isPassEnabled cfg cfg.EnableScalarIRPasses CodeGenOptLevel.Default = true := by
    simp [isPassEnabled, ClBoolOpt.getNumOccurrences, ClBoolOpt.getValue, hov]
  have ha : addEarlyCSEOrGVNPass cfg = [Pass.EarlyCSE] := by
    simp [addEarlyCSEOrGVNPass, hopt]
  have ht : irTail cfg = [Pass.EarlyCSE] := by
    rw [irTail, hen, optList_true, ha]
  rw [addIRPasses_split_none cfg base hopt, ht]
  obtain ⟨-, -, e3, e4, -, e6, e7, e8⟩ := irHeadAtNone_excludes cfg
  refine ⟨?_, ?_, ?_, ?_, ?_, ?_⟩
  · rw [List.getLast?_append_of_ne_nil _ (by simp),
      List.getLast?_append_of_ne_nil _ (by simp)]
    rfl
  · intro p hp
    exact indexOf_mid_lt_last hp
      (not_mem_of_generic (hbase p hp) (mem_irHeadAtNone_none_of cfg)) e4
      (not_mem_base_of_generic hbase rfl)
  · intro h
    rcases List.mem_append.mp h with h | h
    · exact e6 h
    rcases List.mem_append.mp h with h | h
    · exact not_mem_base_of_generic hbase (by decide) h
    · simp at h
  · intro h
    rcases List.mem_append.mp h with h | h
    · exact e7 h
    rcases List.mem_append.mp h with h | h
    · exact not_mem_base_of_generic hbase (by decide) h
    · simp at h
  · intro h
    rcases List.mem_append.mp h with h | h
    · exact e8 h
    rcases List.mem_append.mp h with h | h
    · exact not_mem_base_of_generic hbase (by decide) h
    · simp at h
  · intro h
    rcases List.mem_append.mp h with h | h
    · exact e3 h
    rcases List.mem_append.mp h with h | h
    · exact not_mem_base_of_generic hbase (by decide) h
    · simp at h

/-- Witness for C10 at a concrete configuration with a one-stage
delegate. -/
theorem addIRPasses_scalar_override_none_witness :
    cfgNoneScalarOverride.optLevel = CodeGenOptLevel.None ∧
    cfgNoneScalarOverride.EnableScalarIRPasses.override = some true ∧
    (∀ p ∈ [Pass.generic 0], p.isGeneric = true) ∧
    ((addIRPasses cfgNoneScalarOverride [Pass.generic 0]).getLast? = some Pass.EarlyCSE ∧
     (∀ p ∈ [Pass.generic 0],
       (addIRPasses cfgNoneScalarOverride [Pass.generic 0]).indexOf p <
         (addIRPasses cfgNoneScalarOverride [Pass.generic 0]).indexOf Pass.EarlyCSE) ∧
     Pass.SeparateConstOffsetFromGEP ∉ addIRPasses cfgNoneScalarOverride [Pass.generic 0] ∧
     Pass.StraightLineStrengthReduce ∉ addIRPasses cfgNoneScalarOverride [Pass.generic 0] ∧
     Pass.NaryReassociate ∉ addIRPasses cfgNoneScalarOverride [Pass.generic 0] ∧
     Pass.AMDGPUPromoteAlloca ∉ addIRPasses cfgNoneScalarOverride [Pass.generic 0]) :=
  ⟨by decide, by decide, by decide,
   addIRPasses_scalar_override_none cfgNoneScalarOverride [Pass.generic 0]
     (by decide) (by decide) (by decide)⟩

/-- C8: the three stage kinds disabled in the constructor (StackMapLiveness,
FuncletLayout, ShadowStackGCLowering) never appear in the stage sequence of
any of the five phase builders, for any configuration and any
(generic-stage) delegate contribution: no flag value re-enables them. -/
theorem disabled_stage_kinds_never_appear (cfg : Config) (base₁ base₂ : List Pass)
    (hb₁ : ∀ q ∈ base₁, q.isGeneric = true) (hb₂ : ∀ q ∈ base₂, q.isGeneric = true) :
    ∀ p ∈ constructorDisabledPasses,
      p ∉ addIRPasses cfg base₁ ∧
      p ∉ addCodeGenPrepare cfg base₂ ∧
      p ∉ addPreISel cfg ∧
      (∀ l, addInstSelector cfg = Except.ok l → p ∉ l) ∧
      p ∉ addAsmPrinter cfg := by
  intro p hp
  obtain ⟨hU1, hU2, hU3, hU4, hpg⟩ :=
    (by decide :
      ∀ p ∈ constructorDisabledPasses,
        p ∉ [Pass.AMDGPUPrintfRuntimeBinding, Pass.AMDGPUCtorDtorLowering,
          Pass.AMDGPUImageIntrinsicOptimizer, Pass.ExpandVariadics,
          Pass.AMDGPUAlwaysInline, Pass.AlwaysInliner, Pass.AMDGPULowerModuleLDS,
          Pass.InferAddressSpaces, Pass.AMDGPUAtomicOptimizer, Pass.AtomicExpand,
          Pass.AMDGPUPromoteAlloca, Pass.LoopDataPrefetch,
          Pass.SeparateConstOffsetFromGEP, Pass.StraightLineStrengthReduce,
          Pass.GVN, Pass.EarlyCSE, Pass.NaryReassociate,
          Pass.AMDGPUCodeGenPrepare] ∧
        p ∉ [Pass.AMDGPULowerKernelArguments, Pass.AMDGPULowerBufferFatPointers,
          Pass.LoadStoreVectorizer, Pass.LowerSwitch] ∧
        p ∉ [Pass.FlattenCFG, Pass.Sinking, Pass.AMDGPULateCodeGenPrepare,
          Pass.AMDGPUUnifyDivergentExitNodes, Pass.FixIrreducible,
          Pass.UnifyLoopExits, Pass.StructurizeCFG,
          Pass.AMDGPUAnnotateUniformValues, Pass.SIAnnotateControlFlow,
          Pass.AMDGPURewriteUndefForPHI, Pass.LCSSA, Pass.AMDGPUPerfHintAnalysis,
          Pass.RequireUniformityInfoAnalysis] ∧
        p ∉ [Pass.AMDGPUISelDAGToDAG, Pass.SIFixSGPRCopies, Pass.SILowerI1Copies] ∧
        p.isGeneric = false) p hp
  refine ⟨?_, ?_, ?_, ?_, ?_⟩
  · intro h
    rw [addIRPasses_split] at h
    rcases List.mem_append.mp h with h | h
    · exact hU1 (mem_irHeadFull_subset cfg _ h)
    rcases List.mem_append.mp h with h | h
    · exact not_mem_base_of_generic hb₁ hpg h
    · rcases mem_irTail_subset cfg _ h with rfl | rfl
      · exact hU1 (by decide)
      · exact hU1 (by decide)
  · intro h
    rcases mem_addCodeGenPrepare_subset cfg base₂ _ h with h | h
    · exact hU2 h
    · exact not_mem_base_of_generic hb₂ hpg h
  · intro h
    exact hU3 (mem_addPreISel_subset cfg _ h)
  · intro l hl h
    simp [addInstSelector] at hl
    subst hl
    exact hU4 h
  · intro h
    simp [addAsmPrinter] at h

/-- Witness for C8 at a concrete configuration with one-stage delegates. -/
theorem disabled_stage_kinds_never_appear_witness :
    (∀ q ∈ [Pass.generic 0], q.isGeneric = true) ∧
    (∀ q ∈ [Pass.generic 1], q.isGeneric = true) ∧
    (∀ p ∈ constructorDisabledPasses,
      p ∉ addIRPasses cfg0 [Pass.generic 0] ∧
      p ∉ addCodeGenPrepare cfg0 [Pass.generic 1] ∧
      p ∉ addPreISel cfg0 ∧
      (∀ l, addInstSelector cfg0 = Except.ok l → p ∉ l) ∧
      p ∉ addAsmPrinter cfg0) :=
  ⟨by decide, by decide,
   disabled_stage_kinds_never_appear cfg0 [Pass.generic 0] [Pass.generic 1]
     (by decide) (by decide)⟩

/-- Witness for C3 at a concrete configuration. -/
theorem addPreISel_structurizer_disabled_witness :
    cfgDisabledWorkaround.DisableStructurizer = true ∧
    cfgDisabledWorkaround.EnableStructurizerWorkarounds = true ∧
    (Pass.StructurizeCFG ∉ addPreISel cfgDisabledWorkaround ∧
     Pass.FixIrreducible ∉ addPreISel cfgDisabledWorkaround ∧
     Pass.UnifyLoopExits ∉ addPreISel cfgDisabledWorkaround ∧
     Pass.SIAnnotateControlFlow ∉ addPreISel cfgDisabledWorkaround ∧
     Pass.AMDGPURewriteUndefForPHI ∉ addPreISel cfgDisabledWorkaround ∧
     Pass.AMDGPUUnifyDivergentExitNodes ∈ addPreISel cfgDisabledWorkaround ∧
     Pass.AMDGPUAnnotateUniformValues ∈ addPreISel cfgDisabledWorkaround) :=
  ⟨by decide, by decide,
   addPreISel_structurizer_disabled cfgDisabledWorkaround (by decide) (by decide)⟩
